import Mathlib

/-!
Verification development for the polymarket-arbitrage core
(src/core/models.py, src/core/scanner.py, src/core/risk.py,
src/core/execution.py, config.py).

Conventions of the embedding:
* Python Decimal values are modelled as rationals; all arithmetic in the
  modelled code paths is exact on such values.
* datetime values are modelled as integer timestamps in seconds; the
  timedelta days attribute floors toward negative infinity, modelled by
  Int.fdiv by 86400.  Both the naive and the timezone-aware branches of
  days_to_resolution compute the same end minus now difference, so a
  single integer subtraction models them.
* Wall-clock metadata fields that no modelled logic reads (created_at,
  updated_at, timestamp, detected_at) are omitted from the structures.
* Effectful calls (order placement, status polling, orderbook fetches)
  are modelled by passing the responses of the environment in explicitly;
  an exception raised by a call is an error value of the response.
-/

namespace Arb

/-- Order side enumeration (models.py OrderSide). -/
inductive OrderSide where
  | BUY
  | SELL
deriving DecidableEq

/-- Order status enumeration (models.py OrderStatus). -/
inductive OrderStatus where
  | PENDING
  | FILLED
  | PARTIALLY_FILLED
  | CANCELLED
  | FAILED
deriving DecidableEq

/-- Market outcome type (models.py OutcomeType). -/
inductive OutcomeType where
  | YES
  | NO
deriving DecidableEq

/-- Execution result status (execution.py ExecutionResult).  The source
enumeration has exactly these five values; there is no UNWIND_FAILED value. -/
inductive ExecutionResult where
  | SUCCESS
  | PARTIAL_FILL
  | TIMEOUT
  | FAILED
  | UNWOUND
deriving DecidableEq

/-- Polymarket prediction market (models.py Market).  end_date is a
timestamp in seconds. -/
structure Market where
  id : String
  title : String
  conditionId : String
  yesTokenId : String
  noTokenId : String
  endDate : ℤ
  volume : ℚ
  description : Option String := none
  resolutionSource : Option String := none
  category : Option String := none
deriving DecidableEq

/-- models.py Market.days_to_resolution: max(0, (end_date - now).days),
where the timedelta days attribute floors toward negative infinity. -/
def Market.daysToResolution (m : Market) (now : ℤ) : ℤ :=
  max 0 (Int.fdiv (m.endDate - now) 86400)

/-- models.py Market.is_active: now < end_date. -/
def Market.isActive (m : Market) (now : ℤ) : Bool :=
  decide (now < m.endDate)

/-- Single level in the order book (models.py OrderBookLevel). -/
structure OrderBookLevel where
  price : ℚ
  size : ℚ
deriving DecidableEq

/-- Order book for one outcome token (models.py OrderBook). -/
structure OrderBook where
  tokenId : String
  outcome : OutcomeType
  bids : List OrderBookLevel := []
  asks : List OrderBookLevel := []
deriving DecidableEq

/-- models.py OrderBook.best_bid: first bid level if any. -/
def OrderBook.bestBid (b : OrderBook) : Option OrderBookLevel :=
  b.bids.head?

/-- models.py OrderBook.best_ask: first ask level if any. -/
def OrderBook.bestAsk (b : OrderBook) : Option OrderBookLevel :=
  b.asks.head?

/-- models.py OrderBook.best_bid_price: best bid price or 0. -/
def OrderBook.bestBidPrice (b : OrderBook) : ℚ :=
  match b.bestBid with
  | some l => l.price
  | none => 0

/-- models.py OrderBook.best_ask_price: best ask price or 1. -/
def OrderBook.bestAskPrice (b : OrderBook) : ℚ :=
  match b.bestAsk with
  | some l => l.price
  | none => 1

/-- Detected arbitrage opportunity (models.py ArbitrageOpportunity). -/
structure ArbitrageOpportunity where
  market : Market
  yesOrderbook : OrderBook
  noOrderbook : OrderBook
  yesAsk : ℚ
  noAsk : ℚ
  grossEdge : ℚ
  estimatedGas : ℚ
  netProfit : ℚ
  positionSize : ℚ
  liquidity : ℚ
  apy : ℚ
  roi : ℚ
deriving DecidableEq

/-- models.py ArbitrageOpportunity.sum_asks. -/
def ArbitrageOpportunity.sumAsks (o : ArbitrageOpportunity) : ℚ :=
  o.yesAsk + o.noAsk

/-- models.py ArbitrageOpportunity.is_profitable. -/
def ArbitrageOpportunity.isProfitable (o : ArbitrageOpportunity) : Bool :=
  decide (o.netProfit > 0)

/-- models.py ArbitrageOpportunity.confidence_score:
min(50, liquidity) + min(50, gross_edge * 1000).  The source applies no
further clamping. -/
def ArbitrageOpportunity.confidenceScore (o : ArbitrageOpportunity) : ℚ :=
  let liquidityScore := min 50 o.liquidity
  let edgeScore := min 50 (o.grossEdge * 1000)
  liquidityScore + edgeScore

/-- Trading order (models.py Order).  The exchange id is null until
acknowledged. -/
structure Order where
  id : Option String := none
  tokenId : String
  outcome : OutcomeType
  side : OrderSide
  price : ℚ
  size : ℚ
  status : OrderStatus := .PENDING
  filledSize : ℚ := 0
  averagePrice : Option ℚ := none
deriving DecidableEq

/-- models.py Order.is_filled: status == FILLED. -/
def Order.isFilled (o : Order) : Bool :=
  o.status == OrderStatus.FILLED

/-- models.py Order.is_partially_filled. -/
def Order.isPartiallyFilled (o : Order) : Bool :=
  decide (o.filledSize > 0) && decide (o.filledSize < o.size)

/-- models.py Order.remaining_size. -/
def Order.remainingSize (o : Order) : ℚ :=
  o.size - o.filledSize

/-- A pair of orders for the YES+NO arbitrage (models.py TradePair). -/
structure TradePair where
  opportunity : ArbitrageOpportunity
  yesOrder : Order
  noOrder : Order
deriving DecidableEq

/-- models.py TradePair.is_fully_filled: both legs filled. -/
def TradePair.isFullyFilled (tp : TradePair) : Bool :=
  tp.yesOrder.isFilled && tp.noOrder.isFilled

/-- models.py TradePair.is_partially_filled: exactly one leg filled. -/
def TradePair.isPartiallyFilled (tp : TradePair) : Bool :=
  (tp.yesOrder.isFilled && !tp.noOrder.isFilled) ||
  (tp.noOrder.isFilled && !tp.yesOrder.isFilled)

/-- The configuration fields read by the modelled core (config.py Config).
API keys, database, notification and logging settings are glue the core
logic never reads and are omitted. -/
structure Config where
  minGrossEdge : ℚ := 1 / 100
  minNetProfit : ℚ := 1 / 10
  minLiquidity : ℚ := 10
  maxDaysToResolution : ℤ := 14
  minApy : ℚ := 50
  maxTradeSize : ℚ := 15
  maxDailyLoss : ℚ := 10
  maxOpenExposure : ℚ := 50
  orderTimeoutSeconds : ℤ := 5
  partialFillUnwind : Bool := true
  estimatedGasCostUsd : ℚ := 1 / 100
deriving DecidableEq

/-- scanner.py Scanner.detect_arbitrage, transcribed check by check.
The clock instant read inside market.days_to_resolution is passed in as
the explicit argument now. -/
def detectArbitrage (cfg : Config) (market : Market)
    (yesOrderbook noOrderbook : OrderBook) (now : ℤ) :
    Option ArbitrageOpportunity :=
  match yesOrderbook.bestAsk, noOrderbook.bestAsk with
  | none, _ => none
  | _, none => none
  | some yesBest, some noBest =>
    let yesAsk := yesOrderbook.bestAskPrice
    let noAsk := noOrderbook.bestAskPrice
    let sumAsks := yesAsk + noAsk
    if 1 ≤ sumAsks then none
    else
      let grossEdge := 1 - sumAsks
      if grossEdge < cfg.minGrossEdge then none
      else
        let yesLiquidity := yesBest.size
        let noLiquidity := noBest.size
        let availableLiquidity := min yesLiquidity noLiquidity
        if availableLiquidity < cfg.minLiquidity then none
        else
          let positionSize := min availableLiquidity cfg.maxTradeSize
          let estimatedGas := cfg.estimatedGasCostUsd * 2
          let netProfit := grossEdge * positionSize - estimatedGas
          if netProfit < cfg.minNetProfit then none
          else
            let totalCost := sumAsks * positionSize
            let roi := if 0 < totalCost then netProfit / totalCost * 100 else 0
            let daysToResolution := max (market.daysToResolution now) 1
            let apy := grossEdge / (daysToResolution : ℚ) * 365 * 100
            if apy < cfg.minApy then none
            else
              some {
                market := market
                yesOrderbook := yesOrderbook
                noOrderbook := noOrderbook
                yesAsk := yesAsk
                noAsk := noAsk
                grossEdge := grossEdge
                estimatedGas := estimatedGas
                netProfit := netProfit
                positionSize := positionSize
                liquidity := availableLiquidity
                apy := apy
                roi := roi
              }

/-- Two-digit zero padding for the fractional part of a .2f rendering. -/
def natPad2 (n : ℕ) : String :=
  if n < 10 then "0" ++ toString n else toString n

/-- Python f-string .2f formatting on a Decimal value.  On values that are
exact multiples of 0.01 (every value the modelled reasons format) this agrees
with Python; rounding of a third decimal digit is half-up here where Python
uses half-even, a case no modelled code path produces. -/
def fmt2 (q : ℚ) : String :=
  let sign := if q < 0 then "-" else ""
  let cents := (⌊|q| * 100 + 1 / 2⌋).toNat
  sign ++ toString (cents / 100) ++ "." ++ natPad2 (cents % 100)

/-- Python f-string .1f formatting, with the same exactness caveat as fmt2. -/
def fmt1 (q : ℚ) : String :=
  let sign := if q < 0 then "-" else ""
  let tenths := (⌊|q| * 10 + 1 / 2⌋).toNat
  sign ++ toString (tenths / 10) ++ "." ++ toString (tenths % 10)

/-- Plain str() interpolation of a Decimal threshold.  Python renders a
Decimal according to its stored exponent; integral thresholds such as the
default minimum APY print with no decimal places, which this models. -/
def decRepr (q : ℚ) : String :=
  if q.den = 1 then toString q.num else fmt2 q

/-- risk.py check 1 denial text. -/
def tradeSizeReason (positionSize maxTradeSize : ℚ) : String :=
  "Position size $" ++ fmt2 positionSize ++ " exceeds max trade size $" ++
    fmt2 maxTradeSize

/-- risk.py check 2 denial text. -/
def dailyLossReason (dailyPnl maxDailyLoss : ℚ) : String :=
  "Daily loss $" ++ fmt2 (-dailyPnl) ++ " exceeds limit $" ++ fmt2 maxDailyLoss

/-- risk.py check 3 denial text. -/
def exposureReason (newExposure maxOpenExposure : ℚ) : String :=
  "New total exposure $" ++ fmt2 newExposure ++ " would exceed limit $" ++
    fmt2 maxOpenExposure

/-- risk.py check 4 denial text. -/
def netProfitReason (netProfit minNetProfit : ℚ) : String :=
  "Net profit $" ++ fmt2 netProfit ++ " below minimum $" ++ fmt2 minNetProfit

/-- risk.py check 5 denial text. -/
def apyReason (apy minApy : ℚ) : String :=
  "APY " ++ fmt1 apy ++ "% below minimum " ++ decRepr minApy ++ "%"

/-- risk.py check 6 denial text. -/
def daysReason (daysToResolution maxDaysToResolution : ℤ) : String :=
  "Days to resolution " ++ toString daysToResolution ++ " exceeds maximum " ++
    toString maxDaysToResolution

/-- risk.py RiskManager.check_trade_allowed, transcribed check by check.
The running daily PnL counter and the total cost of the open positions read
back from storage are passed in as dailyPnl and totalExposure; the clock
instant read inside market.days_to_resolution is passed in as now.  The
daily counter reset that precedes the checks mutates only that counter and
is modelled by the choice of dailyPnl. -/
def checkTradeAllowed (cfg : Config) (opportunity : ArbitrageOpportunity)
    (dailyPnl totalExposure : ℚ) (now : ℤ) : Bool × Option String :=
  if opportunity.positionSize > cfg.maxTradeSize then
    (false, some (tradeSizeReason opportunity.positionSize cfg.maxTradeSize))
  else if dailyPnl < -cfg.maxDailyLoss then
    (false, some (dailyLossReason dailyPnl cfg.maxDailyLoss))
  else
    let newExposure :=
      totalExposure + opportunity.positionSize * opportunity.sumAsks
    if newExposure > cfg.maxOpenExposure then
      (false, some (exposureReason newExposure cfg.maxOpenExposure))
    else if opportunity.netProfit < cfg.minNetProfit then
      (false, some (netProfitReason opportunity.netProfit cfg.minNetProfit))
    else if opportunity.apy < cfg.minApy then
      (false, some (apyReason opportunity.apy cfg.minApy))
    else
      let daysToResolution := opportunity.market.daysToResolution now
      if daysToResolution > cfg.maxDaysToResolution then
        (false, some (daysReason daysToResolution cfg.maxDaysToResolution))
      else
        (true, none)

/-- The six admission rules in the order the spec lists them, as pass
predicates.  This definition follows the words of the spec (section 4.4) and
exists to be compared with checkTradeAllowed, which is transcribed from the
source. -/
def specRulePasses (cfg : Config) (opportunity : ArbitrageOpportunity)
    (dailyPnl totalExposure : ℚ) (now : ℤ) : Fin 6 → Bool
  | 0 => decide (opportunity.positionSize ≤ cfg.maxTradeSize)
  | 1 => decide (-cfg.maxDailyLoss ≤ dailyPnl)
  | 2 => decide (totalExposure + opportunity.positionSize * opportunity.sumAsks
          ≤ cfg.maxOpenExposure)
  | 3 => decide (cfg.minNetProfit ≤ opportunity.netProfit)
  | 4 => decide (cfg.minApy ≤ opportunity.apy)
  | 5 => decide (opportunity.market.daysToResolution now
          ≤ cfg.maxDaysToResolution)

/-- The first rule of the ordered spec list that fails, if any.  This
definition follows the words of the spec: the first failing rule blocks. -/
def specFirstFailingRule (cfg : Config) (opportunity : ArbitrageOpportunity)
    (dailyPnl totalExposure : ℚ) (now : ℤ) : Option (Fin 6) :=
  if !specRulePasses cfg opportunity dailyPnl totalExposure now 0 then some 0
  else if !specRulePasses cfg opportunity dailyPnl totalExposure now 1 then some 1
  else if !specRulePasses cfg opportunity dailyPnl totalExposure now 2 then some 2
  else if !specRulePasses cfg opportunity dailyPnl totalExposure now 3 then some 3
  else if !specRulePasses cfg opportunity dailyPnl totalExposure now 4 then some 4
  else if !specRulePasses cfg opportunity dailyPnl totalExposure now 5 then some 5
  else none

/-- The denial text the source emits for each rule of the ordered list. -/
def ruleReason (cfg : Config) (opportunity : ArbitrageOpportunity)
    (dailyPnl totalExposure : ℚ) (now : ℤ) : Fin 6 → String
  | 0 => tradeSizeReason opportunity.positionSize cfg.maxTradeSize
  | 1 => dailyLossReason dailyPnl cfg.maxDailyLoss
  | 2 => exposureReason
          (totalExposure + opportunity.positionSize * opportunity.sumAsks)
          cfg.maxOpenExposure
  | 3 => netProfitReason opportunity.netProfit cfg.minNetProfit
  | 4 => apyReason opportunity.apy cfg.minApy
  | 5 => daysReason (opportunity.market.daysToResolution now)
          cfg.maxDaysToResolution

/-- Whether the first list starts with the second list. -/
def charsStartWith : List Char → List Char → Bool
  | _, [] => true
  | [], _ :: _ => false
  | c :: cs, p :: ps => c == p && charsStartWith cs ps

/-- Whether the pattern occurs as a contiguous run inside the list. -/
def charsContain (pattern : List Char) : List Char → Bool
  | [] => charsStartWith [] pattern
  | c :: cs => charsStartWith (c :: cs) pattern || charsContain pattern cs

/-- Whether the pattern occurs inside the string (used to state that a
denial reason cites a given rule). -/
def strCites (s pattern : String) : Bool :=
  charsContain pattern.toList s.toList

/-- Python sorted key comparison used by scanner.py rank_opportunities:
the key tuple (-apy, -net_profit, -liquidity) compared ascending and
lexicographically, hence descending APY, then descending net profit, then
descending liquidity. -/
def oppSortLE (a b : ArbitrageOpportunity) : Bool :=
  decide (b.apy < a.apy) ||
    (a.apy == b.apy && (decide (b.netProfit < a.netProfit) ||
      (a.netProfit == b.netProfit && decide (b.liquidity ≤ a.liquidity))))

/-- scanner.py Scanner.rank_opportunities: an empty input returns [],
otherwise a stable sort by the three-key descending comparison.  Python
sorted is a stable sort; mergeSort is the stable sort of the library. -/
def rankOpportunities (opportunities : List ArbitrageOpportunity) :
    List ArbitrageOpportunity :=
  if opportunities.isEmpty then []
  else opportunities.mergeSort oppSortLE

/-- Outcome of the concurrent leg submission step of
execution.py Executor.execute_arbitrage (lines 90 to 131). -/
inductive SubmitResult where
  | failed (cancelledIds : List String)
  | placed (yesOrder noOrder : Order)
deriving DecidableEq

/-- The submission step of execution.py Executor.execute_arbitrage,
transcribed from the source.  Each gathered placement call settles either
with an exception (error), with None, or with an Order.  The source checks
the YES exception first and returns FAILED without any cancellation; only
when the NO placement raised does it cancel the YES order, and only if that
order is truthy and has a truthy id.  A missing (None) order on either leg
also returns FAILED without cancellation. -/
def submitLegs (yesRes noRes : Except String (Option Order)) : SubmitResult :=
  match yesRes with
  | .error _ => .failed []
  | .ok yesOrder =>
    match noRes with
    | .error _ =>
      .failed (match yesOrder with
        | some o => (match o.id with | some i => [i] | none => [])
        | none => [])
    | .ok noOrder =>
      match yesOrder, noOrder with
      | some y, some n => .placed y n
      | _, _ => .failed []

/-- execution.py Executor._cancel_unfilled_orders: the ids handed to
cancel_order, one for each leg whose order is not filled. -/
def cancelUnfilledOrders (tp : TradePair) : List (Option String) :=
  (if !tp.yesOrder.isFilled then [tp.yesOrder.id] else []) ++
  (if !tp.noOrder.isFilled then [tp.noOrder.id] else [])

/-- One poll of the two order statuses: the gathered responses of
get_order_status for the YES and the NO legs, each an Order or an
exception. -/
abbrev PollPair := Except Unit Order × Except Unit Order

/-- execution.py Executor._wait_for_fills, transcribed from the source.
fuel is the number of loop iterations the while condition admits, namely
the timeout divided by the 0.5 second check interval, rounded up; polls i
is the pair of status responses of iteration i.  The returned list is the
sequence of order ids handed to cancel_order: the source cancels unfilled
legs only on the timeout path, and returns early from inside the loop on a
full or a partial fill without any cancellation. -/
def waitForFills (polls : ℕ → PollPair) : ℕ → ℕ → TradePair →
    ExecutionResult × TradePair × List (Option String)
  | _, 0, tp =>
    let cancels := cancelUnfilledOrders tp
    if tp.isFullyFilled then (.SUCCESS, tp, cancels)
    else if tp.isPartiallyFilled then (.PARTIAL_FILL, tp, cancels)
    else (.TIMEOUT, tp, cancels)
  | i, fuel + 1, tp =>
    let yesStatus := (polls i).1
    let noStatus := (polls i).2
    let tp1 : TradePair :=
      { tp with yesOrder := match yesStatus with
          | .ok o => o
          | .error _ => tp.yesOrder }
    let tp2 : TradePair :=
      { tp1 with noOrder := match noStatus with
          | .ok o => o
          | .error _ => tp1.noOrder }
    if tp2.isFullyFilled then (.SUCCESS, tp2, [])
    else if tp2.isPartiallyFilled then (.PARTIAL_FILL, tp2, [])
    else waitForFills polls (i + 1) fuel tp2

/-- execution.py Executor._unwind_partial_fill, transcribed from the
source.  orderbook is the fetched book of the filled leg token; placeRes
and statusRes are the responses of the sell placement and of the later
status check (an exception anywhere in the try block yields False, the
same value as a falsy response, so exceptions are modelled by none).  The
sell price and size (best bid, filled size) do not affect the returned
truth value. -/
def unwindPartialFill (tp : TradePair) (orderbook : OrderBook)
    (placeRes statusRes : Option Order) : Bool :=
  let filledLeg : Option Order :=
    if tp.yesOrder.isFilled && !tp.noOrder.isFilled then some tp.yesOrder
    else if tp.noOrder.isFilled && !tp.yesOrder.isFilled then some tp.noOrder
    else none
  match filledLeg with
  | none => false
  | some _ =>
    match orderbook.bestBid with
    | none => false
    | some _ =>
      match placeRes with
      | none => false
      | some _ =>
        match statusRes with
        | some unwindStatus => unwindStatus.isFilled
        | none => false

/-- The environment responses one execution attempt consumes: the two
placement responses, the status polls, and the orderbook fetch, sell
placement and status check of a possible unwind. -/
structure ExecEnv where
  yesPlace : Except String (Option Order)
  noPlace : Except String (Option Order)
  polls : ℕ → PollPair
  unwindBook : OrderBook
  unwindPlace : Option Order := none
  unwindStatus : Option Order := none

/-- execution.py Executor.execute_arbitrage on a live run (dry_run False),
transcribed from the source: submit both legs, wait for fills, and on a
partial fill with unwind enabled attempt the unwind, mapping its success to
UNWOUND and its failure back to PARTIAL_FILL.  The third component collects
every id handed to cancel_order during the attempt. -/
def executeArbitrage (opportunity : ArbitrageOpportunity)
    (partialFillUnwind : Bool) (fuel : ℕ) (env : ExecEnv) :
    ExecutionResult × Option TradePair × List (Option String) :=
  match submitLegs env.yesPlace env.noPlace with
  | .failed cancelledIds => (.FAILED, none, cancelledIds.map some)
  | .placed yesOrder noOrder =>
    let tp : TradePair :=
      { opportunity := opportunity, yesOrder := yesOrder, noOrder := noOrder }
    let w := waitForFills env.polls 0 fuel tp
    let result := w.1
    let tpAfter := w.2.1
    let cancels := w.2.2
    if result == .PARTIAL_FILL && partialFillUnwind then
      if unwindPartialFill tpAfter env.unwindBook env.unwindPlace
          env.unwindStatus then
        (.UNWOUND, some tpAfter, cancels)
      else
        (.PARTIAL_FILL, some tpAfter, cancels)
    else
      (result, some tpAfter, cancels)

/-! Concrete fixtures: the concrete scenarios of the spec (section 8) and
the inputs the counterexamples and witnesses evaluate the model on. -/

/-- A market resolving seven days after the epoch instant 0. -/
def mktA : Market :=
  { id := "mkt-a", title := "Scenario A market", conditionId := "cond-a",
    yesTokenId := "yes-token", noTokenId := "no-token",
    endDate := 86400 * 7, volume := 10000 }

/-- YES book of scenario A: best ask 0.48 with size 100. -/
def yobA : OrderBook :=
  { tokenId := "yes-token", outcome := .YES,
    bids := [{ price := 0.47, size := 100 }],
    asks := [{ price := 0.48, size := 100 }] }

/-- NO book of scenario A: best ask 0.50 with size 100. -/
def nobA : OrderBook :=
  { tokenId := "no-token", outcome := .NO,
    bids := [{ price := 0.49, size := 100 }],
    asks := [{ price := 0.50, size := 100 }] }

/-- Scenario A configuration: max trade size 100, otherwise defaults. -/
def cfgA : Config :=
  { maxTradeSize := 100, maxOpenExposure := 100 }

/-- The opportunity the Evaluator emits on scenario A (the fields
detect_arbitrage computes on those inputs, written out). -/
def oppA : ArbitrageOpportunity :=
  { market := mktA, yesOrderbook := yobA, noOrderbook := nobA,
    yesAsk := 0.48, noAsk := 0.50, grossEdge := 0.02, estimatedGas := 0.02,
    netProfit := 1.98, positionSize := 100, liquidity := 100,
    apy := 730 / 7, roi := 99 / 49 }

/-- A market resolving ten days after the epoch instant 0. -/
def mktB : Market :=
  { mktA with id := "mkt-b", endDate := 86400 * 10 }

/-- Scenario A configuration tightened to minimum APY 100. -/
def cfgB : Config :=
  { cfgA with minApy := 100 }

/-- A configuration strictly tighter than cfgA in every threshold that
still admits the scenario A opportunity. -/
def cfgTight : Config :=
  { cfgA with
    maxTradeSize := 100, maxDailyLoss := 5, maxOpenExposure := 99,
    minNetProfit := 1, minApy := 60, maxDaysToResolution := 10 }

/-- Scenario C configuration: max trade size 10. -/
def cfgC : Config :=
  { cfgA with maxTradeSize := 10 }

/-- Scenario C opportunity: position size 20. -/
def oppC : ArbitrageOpportunity :=
  { market := mktA, yesOrderbook := yobA, noOrderbook := nobA,
    yesAsk := 0.48, noAsk := 0.50, grossEdge := 0.02, estimatedGas := 0.02,
    netProfit := 0.38, positionSize := 20, liquidity := 20,
    apy := 104, roi := 1.9 }

/-- An opportunity with a negative gross edge, on which the confidence
score is evaluated. -/
def oppBad : ArbitrageOpportunity :=
  { market := mktA, yesOrderbook := yobA, noOrderbook := nobA,
    yesAsk := 0.48, noAsk := 0.50, grossEdge := -1, estimatedGas := 0.02,
    netProfit := 0, positionSize := 0, liquidity := 0,
    apy := 0, roi := 0 }

/-- The YES leg order as acknowledged by the gateway. -/
def yesOrd0 : Order :=
  { id := some "yes-1", tokenId := "yes-token", outcome := .YES,
    side := .BUY, price := 0.48, size := 100 }

/-- The NO leg order as acknowledged by the gateway. -/
def noOrd0 : Order :=
  { id := some "no-1", tokenId := "no-token", outcome := .NO,
    side := .BUY, price := 0.50, size := 100 }

/-- The YES leg order after a full fill. -/
def yesOrdFilled : Order :=
  { yesOrd0 with
    status := .FILLED, filledSize := 100, averagePrice := some 0.48 }

/-- The unwind sell order as acknowledged by the gateway. -/
def unwindOrd : Order :=
  { id := some "unwind-1", tokenId := "yes-token", outcome := .YES,
    side := .SELL, price := 0.47, size := 100 }

/-- The unwind sell order after a full fill. -/
def unwindOrdFilled : Order :=
  { unwindOrd with
    status := .FILLED, filledSize := 100, averagePrice := some 0.47 }

/-- The trade pair right after both placements succeed. -/
def tpA : TradePair :=
  { opportunity := oppA, yesOrder := yesOrd0, noOrder := noOrd0 }

/-- Status polls on which the YES leg reports filled from the first poll on
while the NO leg stays pending. -/
def pollsOneSided : ℕ → PollPair :=
  fun _ => (.ok yesOrdFilled, .ok noOrd0)

/-- Environment: both placements succeed, the fills stay one sided, and the
unwind sell order fills. -/
def envOneSided : ExecEnv :=
  { yesPlace := .ok (some yesOrd0), noPlace := .ok (some noOrd0),
    polls := pollsOneSided, unwindBook := yobA,
    unwindPlace := some unwindOrd, unwindStatus := some unwindOrdFilled }

/-- Environment: as envOneSided, but the unwind sell order does not fill. -/
def envOneSidedUnwindFail : ExecEnv :=
  { envOneSided with unwindStatus := some unwindOrd }

/-- Environment: the YES placement raises while the NO placement succeeds. -/
def envYesFail : ExecEnv :=
  { envOneSided with yesPlace := .error "placement failed" }

/-- Status polls on which both legs stay pending forever. -/
def pollsPending : ℕ → PollPair :=
  fun _ => (.ok yesOrd0, .ok noOrd0)

/-- The opportunity the Evaluator emits on the cfgB, mktB inputs at the
clock instant nine days past the epoch. -/
def oppB9 : ArbitrageOpportunity :=
  { oppA with market := mktB, apy := 730 }

/-! Helper lemmas. -/

lemma oppSortLE_trans (a b c : ArbitrageOpportunity)
    (hab : oppSortLE a b = true) (hbc : oppSortLE b c = true) :
    oppSortLE a c = true := by
  simp only [oppSortLE, Bool.or_eq_true, Bool.and_eq_true, decide_eq_true_eq,
    beq_iff_eq] at *
  rcases hab with h1 | ⟨h1, h2 | ⟨h2, h3⟩⟩ <;>
    rcases hbc with g1 | ⟨g1, g2 | ⟨g2, g3⟩⟩ <;>
    first
      | (left; linarith)
      | (right; constructor; linarith;
         first
           | (left; linarith)
           | (right; constructor; linarith; linarith))

lemma oppSortLE_total (a b : ArbitrageOpportunity) :
    (oppSortLE a b || oppSortLE b a) = true := by
  simp only [oppSortLE, Bool.or_eq_true, Bool.and_eq_true, decide_eq_true_eq,
    beq_iff_eq]
  rcases lt_trichotomy a.apy b.apy with h | h | h
  · tauto
  · rcases lt_trichotomy a.netProfit b.netProfit with g | g | g
    · tauto
    · rcases le_total b.liquidity a.liquidity with f | f <;> tauto
    · tauto
  · tauto

lemma oppSortLE_of_key_eq (a b : ArbitrageOpportunity)
    (h : (a.apy, a.netProfit, a.liquidity) =
      (b.apy, b.netProfit, b.liquidity)) :
    oppSortLE a b = true := by
  simp only [Prod.mk.injEq] at h
  obtain ⟨h1, h2, h3⟩ := h
  simp [oppSortLE, h1, h2, h3]

lemma pairwise_filter_of_forall {α : Type} (p : α → Bool)
    (R : α → α → Prop) (h : ∀ a b, p a = true → p b = true → R a b) :
    ∀ l : List α, (l.filter p).Pairwise R := by
  intro l
  induction l with
  | nil => simp
  | cons a l ih =>
    by_cases ha : p a = true
    · rw [List.filter_cons_of_pos ha]
      exact List.Pairwise.cons
        (fun b hb => h a b ha (List.mem_filter.mp hb).2) ih
    · rw [List.filter_cons_of_neg (by simpa using ha)]
      exact ih

/-- A stable sort leaves every key-equivalence class in input order: the
filter of the sorted list on any fixed three-part key equals the filter of
the input. -/
lemma mergeSort_filter_key (l : List ArbitrageOpportunity) (k : ℚ × ℚ × ℚ) :
    (l.mergeSort oppSortLE).filter
        (fun o => decide ((o.apy, o.netProfit, o.liquidity) = k)) =
      l.filter (fun o => decide ((o.apy, o.netProfit, o.liquidity) = k)) := by
  set p : ArbitrageOpportunity → Bool :=
    fun o => decide ((o.apy, o.netProfit, o.liquidity) = k) with hp
  have hkey : ∀ a b, p a = true → p b = true →
      (a.apy, a.netProfit, a.liquidity) =
        (b.apy, b.netProfit, b.liquidity) := by
    intro a b ha hb
    rw [hp] at ha hb
    simp only [decide_eq_true_eq] at ha hb
    rw [ha, hb]
  have hpair : (l.filter p).Pairwise (fun a b => oppSortLE a b = true) :=
    pairwise_filter_of_forall p _
      (fun a b ha hb => oppSortLE_of_key_eq a b (hkey a b ha hb)) l
  have hsub : (l.filter p).Sublist (l.mergeSort oppSortLE) :=
    List.sublist_mergeSort oppSortLE_trans oppSortLE_total hpair
      (List.filter_sublist l)
  have hsub2 : ((l.filter p).filter p).Sublist
      ((l.mergeSort oppSortLE).filter p) := List.Sublist.filter p hsub
  have hself : (l.filter p).filter p = l.filter p :=
    List.filter_eq_self.mpr (fun a ha => (List.mem_filter.mp ha).2)
  rw [hself] at hsub2
  have hlen : (l.filter p).length =
      ((l.mergeSort oppSortLE).filter p).length :=
    (List.Perm.filter p (List.mergeSort_perm l oppSortLE)).length_eq.symm
  exact (List.Sublist.eq_of_length hsub2 hlen).symm

lemma fmt2_twenty : fmt2 20 = "20.00" := by
  norm_num [fmt2, natPad2]
  decide

/-! Claim theorems. -/

/-- Claim C1: the claim says every leg not filled when the fill monitoring
loop exits (by timeout, full fill, or partial fill) has been cancelled, so
no order remains open past the timeout.  The code violates this on the
partial fill exit: when the YES leg fills on the first poll and the NO leg
stays pending, the loop returns PARTIAL_FILL with the NO order unfilled and
an empty cancellation list, and end to end (unwind enabled and succeeding)
the execution terminates UNWOUND still without any cancellation, leaving
the NO buy order open at the gateway.  On the timeout path the loop does
cancel both unfilled legs. -/
theorem partial_fill_exit_leaves_unfilled_leg_uncancelled :
    (waitForFills pollsOneSided 0 10 tpA).1 = ExecutionResult.PARTIAL_FILL ∧
    (waitForFills pollsOneSided 0 10 tpA).2.1.noOrder.isFilled = false ∧
    (waitForFills pollsOneSided 0 10 tpA).2.2 = [] ∧
    executeArbitrage oppA true 10 envOneSided =
      (ExecutionResult.UNWOUND,
        some { opportunity := oppA, yesOrder := yesOrdFilled,
               noOrder := noOrd0 },
        []) ∧
    noOrd0.isFilled = false ∧
    waitForFills pollsPending 0 2 tpA =
      (ExecutionResult.TIMEOUT, tpA, [some "yes-1", some "no-1"]) :=
  ⟨rfl, rfl, rfl, rfl, rfl, rfl⟩

/-- Claim C2: the claim says that if either leg submission fails the other
placed leg is cancelled and the result is FAILED.  The code satisfies this
only when the NO placement fails: when the YES placement raises and the NO
placement succeeds with id no-1, the code returns FAILED with no
cancellation at all, leaving the NO order live.  When both submissions
fail the result is FAILED with zero orders placed and zero cancels, as the
claim states. -/
theorem yes_submission_failure_skips_cancel_of_no_leg :
    submitLegs (Except.error "placement failed") (Except.ok (some noOrd0)) =
      SubmitResult.failed [] ∧
    noOrd0.id = some "no-1" ∧
    submitLegs (Except.ok (some yesOrd0)) (Except.error "placement failed") =
      SubmitResult.failed ["yes-1"] ∧
    submitLegs (Except.error "a") (Except.error "b") =
      SubmitResult.failed [] ∧
    executeArbitrage oppA true 10 envYesFail =
      (ExecutionResult.FAILED, none, []) :=
  ⟨rfl, rfl, rfl, rfl, rfl⟩

/-- Claim C3, counterexample: the claim says a failed unwind yields a
distinct residual-risk terminal value UNWIND_FAILED, different from an
ordinary partial fill.  In the code the unwind failure path returns
PARTIAL_FILL, exactly the value an ordinary partial fill with unwind
disabled returns, so the two outcomes are indistinguishable. -/
theorem unwind_failure_result_equals_plain_partial_fill :
    (executeArbitrage oppA true 10 envOneSidedUnwindFail).1 =
      ExecutionResult.PARTIAL_FILL ∧
    (executeArbitrage oppA false 10 envOneSidedUnwindFail).1 =
      ExecutionResult.PARTIAL_FILL ∧
    (executeArbitrage oppA true 10 envOneSidedUnwindFail).1 =
      (executeArbitrage oppA false 10 envOneSidedUnwindFail).1 :=
  ⟨rfl, rfl, rfl⟩

/-- Claim C3, amended: when an execution ends partially filled and unwind
is enabled, a filled unwind sell order yields UNWOUND and an unfilled one
yields PARTIAL_FILL, the same ExecutionResult value as an ordinary partial
fill; the ExecutionResult enumeration has no UNWIND_FAILED value. -/
theorem unwind_outcome_mapping (opportunity : ArbitrageOpportunity)
    (fuel : ℕ) (env : ExecEnv) (y n : Order)
    (hsub : submitLegs env.yesPlace env.noPlace = SubmitResult.placed y n)
    (hwait : (waitForFills env.polls 0 fuel
        { opportunity := opportunity, yesOrder := y, noOrder := n }).1 =
      ExecutionResult.PARTIAL_FILL) :
    (executeArbitrage opportunity true fuel env).1 =
      if unwindPartialFill
          (waitForFills env.polls 0 fuel
            { opportunity := opportunity, yesOrder := y, noOrder := n }).2.1
          env.unwindBook env.unwindPlace env.unwindStatus
      then ExecutionResult.UNWOUND else ExecutionResult.PARTIAL_FILL := by
  unfold executeArbitrage
  rw [hsub]
  cases hu : unwindPartialFill
      (waitForFills env.polls 0 fuel
        { opportunity := opportunity, yesOrder := y, noOrder := n }).2.1
      env.unwindBook env.unwindPlace env.unwindStatus <;>
    simp [hwait, hu]

/-- Claim C3, witness for the amended theorem at the concrete failing
unwind environment. -/
theorem unwind_outcome_mapping_witness :
    (executeArbitrage oppA true 10 envOneSidedUnwindFail).1 =
      if unwindPartialFill
          (waitForFills envOneSidedUnwindFail.polls 0 10
            { opportunity := oppA, yesOrder := yesOrd0,
              noOrder := noOrd0 }).2.1
          envOneSidedUnwindFail.unwindBook envOneSidedUnwindFail.unwindPlace
          envOneSidedUnwindFail.unwindStatus
      then ExecutionResult.UNWOUND else ExecutionResult.PARTIAL_FILL :=
  unwind_outcome_mapping oppA 10 envOneSidedUnwindFail yesOrd0 noOrd0 rfl rfl

/-- Claim C4: every opportunity the Evaluator emits has sumAsks strictly
below one, gross edge exactly one minus sumAsks, fixed cost exactly twice
the per-leg gas estimate, net profit exactly edge times size minus fixed
cost, and net profit at least the configured minimum. -/
theorem detect_arbitrage_economics (cfg : Config) (market : Market)
    (yesOrderbook noOrderbook : OrderBook) (now : ℤ)
    (opp : ArbitrageOpportunity)
    (h : detectArbitrage cfg market yesOrderbook noOrderbook now = some opp) :
    opp.sumAsks < 1 ∧
    opp.grossEdge = 1 - opp.sumAsks ∧
    opp.estimatedGas = cfg.estimatedGasCostUsd * 2 ∧
    opp.netProfit = opp.grossEdge * opp.positionSize - opp.estimatedGas ∧
    cfg.minNetProfit ≤ opp.netProfit := by
  simp only [detectArbitrage] at h
  split at h
  · exact Option.noConfusion h
  · exact Option.noConfusion h
  · split_ifs at h with h1 h2 h3 h4 hc h5 <;>
      try exact Option.noConfusion h
    all_goals
      cases Option.some.inj h
      exact ⟨lt_of_not_le h1, rfl, rfl, rfl, le_of_not_lt h4⟩

/-- Claim C4, witness at the scenario A inputs. -/
theorem detect_arbitrage_economics_witness :
    oppA.sumAsks < 1 ∧
    oppA.grossEdge = 1 - oppA.sumAsks ∧
    oppA.estimatedGas = cfgA.estimatedGasCostUsd * 2 ∧
    oppA.netProfit = oppA.grossEdge * oppA.positionSize - oppA.estimatedGas ∧
    cfgA.minNetProfit ≤ oppA.netProfit :=
  detect_arbitrage_economics cfgA mktA yobA nobA 0 oppA (by
    norm_num [detectArbitrage, cfgA, mktA, yobA, nobA, oppA,
      OrderBook.bestAsk, OrderBook.bestAskPrice, Market.daysToResolution,
      Int.fdiv])

/-- Claim C5, counterexample: with market, order books and configuration
all fixed, the Evaluator returns no opportunity at clock instant 0 (ten
days to resolution, APY 73 below the minimum 100) and an opportunity at
clock instant 777600 (one day to resolution, APY 730), so the function is
not deterministic given only its declared inputs: the hidden clock read
inside days_to_resolution changes the result. -/
theorem detect_arbitrage_clock_dependent :
    detectArbitrage cfgB mktB yobA nobA 0 = none ∧
    detectArbitrage cfgB mktB yobA nobA 777600 = some oppB9 ∧
    detectArbitrage cfgB mktB yobA nobA 0 ≠
      detectArbitrage cfgB mktB yobA nobA 777600 := by
  have h0 : detectArbitrage cfgB mktB yobA nobA 0 = none := by
    norm_num [detectArbitrage, cfgB, cfgA, mktB, mktA, yobA, nobA,
      OrderBook.bestAsk, OrderBook.bestAskPrice, Market.daysToResolution,
      Int.fdiv]
  have h9 : detectArbitrage cfgB mktB yobA nobA 777600 = some oppB9 := by
    norm_num [detectArbitrage, cfgB, cfgA, mktB, mktA, yobA, nobA, oppB9,
      oppA, OrderBook.bestAsk, OrderBook.bestAskPrice,
      Market.daysToResolution, Int.fdiv]
  refine ⟨h0, h9, ?_⟩
  intro heq
  rw [h0, h9] at heq
  exact Option.noConfusion heq

/-- Claim C5, amended: the Evaluator is side-effect-free apart from
logging, and is deterministic given its inputs together with the clock
instant it reads: whenever two clock instants give the market the same
days_to_resolution value, the results agree exactly. -/
theorem detect_arbitrage_deterministic_given_clock (cfg : Config)
    (market : Market) (yesOrderbook noOrderbook : OrderBook) (t t' : ℤ)
    (h : market.daysToResolution t = market.daysToResolution t') :
    detectArbitrage cfg market yesOrderbook noOrderbook t =
      detectArbitrage cfg market yesOrderbook noOrderbook t' := by
  unfold detectArbitrage
  rw [h]

/-- Claim C5, witness: two clock instants with the same floored number of
days to resolution give equal results on the scenario A inputs. -/
theorem detect_arbitrage_deterministic_given_clock_witness :
    detectArbitrage cfgA mktA yobA nobA 43200 =
      detectArbitrage cfgA mktA yobA nobA 86399 :=
  detect_arbitrage_deterministic_given_clock cfgA mktA yobA nobA 43200 86399
    (by decide)

/-- Claim C6: the RiskGate admission decision is monotone in every
threshold: a configuration tightened in any combination of the six
thresholds (and so in particular in any single one, the others held equal)
admits a subset of the trades the looser configuration admits. -/
theorem check_trade_allowed_threshold_monotone (c c' : Config)
    (opportunity : ArbitrageOpportunity) (dailyPnl totalExposure : ℚ)
    (now : ℤ)
    (h1 : c'.maxTradeSize ≤ c.maxTradeSize)
    (h2 : c'.maxDailyLoss ≤ c.maxDailyLoss)
    (h3 : c'.maxOpenExposure ≤ c.maxOpenExposure)
    (h4 : c.minNetProfit ≤ c'.minNetProfit)
    (h5 : c.minApy ≤ c'.minApy)
    (h6 : c'.maxDaysToResolution ≤ c.maxDaysToResolution)
    (h : (checkTradeAllowed c' opportunity dailyPnl totalExposure now).1 =
      true) :
    (checkTradeAllowed c opportunity dailyPnl totalExposure now).1 = true := by
  simp only [checkTradeAllowed] at h ⊢
  split_ifs at h with n1 n2 n3 n4 n5 n6 <;> simp at h
  split_ifs with g1 g2 g3 g4 g5 g6
  · exact absurd (lt_of_le_of_lt h1 g1) n1
  · exact absurd (lt_of_lt_of_le g2 (neg_le_neg h2)) n2
  · exact absurd (lt_of_le_of_lt h3 g3) n3
  · exact absurd (lt_of_lt_of_le g4 h4) n4
  · exact absurd (lt_of_lt_of_le g5 h5) n5
  · exact absurd (lt_of_le_of_lt h6 g6) n6
  · rfl

/-- Claim C6, witness: the scenario A opportunity is admitted under the
strictly tighter cfgTight, and the theorem transports the admission to the
looser cfgA. -/
theorem check_trade_allowed_threshold_monotone_witness :
    (checkTradeAllowed cfgA oppA 0 0 0).1 = true :=
  check_trade_allowed_threshold_monotone cfgA cfgTight oppA 0 0 0
    (by norm_num [cfgA, cfgTight])
    (by norm_num [cfgA, cfgTight])
    (by norm_num [cfgA, cfgTight])
    (by norm_num [cfgA, cfgTight])
    (by norm_num [cfgA, cfgTight])
    (by norm_num [cfgA, cfgTight])
    (by norm_num [checkTradeAllowed, cfgTight, cfgA, oppA, mktA,
      ArbitrageOpportunity.sumAsks, Market.daysToResolution, Int.fdiv])

/-- Claim C7: rank_opportunities permutes its input, orders it by
descending APY with ties broken by descending net profit and then
descending liquidity, leaves every class of key-equal elements in input
order (stability), and is idempotent. -/
theorem rank_opportunities_stable_three_key_sort_idempotent
    (l : List ArbitrageOpportunity) :
    (rankOpportunities l).Perm l ∧
    (rankOpportunities l).Pairwise (fun a b =>
      b.apy < a.apy ∨ (a.apy = b.apy ∧ (b.netProfit < a.netProfit ∨
        (a.netProfit = b.netProfit ∧ b.liquidity ≤ a.liquidity)))) ∧
    (∀ k : ℚ × ℚ × ℚ,
      (rankOpportunities l).filter
          (fun o => decide ((o.apy, o.netProfit, o.liquidity) = k)) =
        l.filter (fun o => decide ((o.apy, o.netProfit, o.liquidity) = k))) ∧
    rankOpportunities (rankOpportunities l) = rankOpportunities l := by
  by_cases hl : l.isEmpty = true
  · rw [List.isEmpty_iff] at hl
    subst hl
    simp [rankOpportunities]
  · have hrank : rankOpportunities l = l.mergeSort oppSortLE := by
      simp [rankOpportunities, hl]
    refine ⟨?_, ?_, ?_, ?_⟩
    · rw [hrank]
      exact List.mergeSort_perm l oppSortLE
    · rw [hrank]
      refine (List.sorted_mergeSort oppSortLE_trans oppSortLE_total l).imp ?_
      intro a b hab
      simpa only [oppSortLE, Bool.or_eq_true, Bool.and_eq_true,
        decide_eq_true_eq, beq_iff_eq] using hab
    · intro k
      rw [hrank]
      exact mergeSort_filter_key l k
    · rw [hrank]
      have hne : (l.mergeSort oppSortLE).isEmpty = false := by
        rw [Bool.eq_false_iff]
        intro h
        rw [List.isEmpty_iff] at h
        have hlen := (List.mergeSort_perm l oppSortLE).length_eq
        rw [h] at hlen
        exact hl (List.isEmpty_iff.mpr (List.length_eq_zero.mp hlen.symm))
      rw [rankOpportunities, hne]
      simp only [Bool.false_eq_true, if_false]
      exact List.mergeSort_of_sorted
        (List.sorted_mergeSort oppSortLE_trans oppSortLE_total l)

/-- Claim C8: the admission check decides exactly the ordered six-rule list
of the spec (allowed precisely when no rule fails), a first failing rule
produces the denial with the reason text of that rule, and on the concrete
scenario C (position size 20 against max trade size 10) the denial reason
cites the trade size rule. -/
theorem check_trade_allowed_first_failing_rule (cfg : Config)
    (opportunity : ArbitrageOpportunity) (dailyPnl totalExposure : ℚ)
    (now : ℤ) :
    ((checkTradeAllowed cfg opportunity dailyPnl totalExposure now).1 =
        true ↔
      specFirstFailingRule cfg opportunity dailyPnl totalExposure now =
        none) ∧
    (∀ i : Fin 6,
      specFirstFailingRule cfg opportunity dailyPnl totalExposure now =
          some i →
        checkTradeAllowed cfg opportunity dailyPnl totalExposure now =
          (false,
            some (ruleReason cfg opportunity dailyPnl totalExposure now
              i))) ∧
    (checkTradeAllowed cfgC oppC 0 0 0).1 = false ∧
    strCites ((checkTradeAllowed cfgC oppC 0 0 0).2.getD "") "trade size" =
      true := by
  have hC : checkTradeAllowed cfgC oppC 0 0 0 =
      (false, some (tradeSizeReason 20 10)) := by
    norm_num [checkTradeAllowed, cfgC, cfgA, oppC, tradeSizeReason]
  refine ⟨?_, ?_, ?_, ?_⟩
  · simp only [checkTradeAllowed, specFirstFailingRule, specRulePasses,
      Bool.not_eq_true', decide_eq_false_iff_not, not_le, gt_iff_lt]
    split_ifs <;> simp
  · intro i hi
    simp only [specFirstFailingRule, specRulePasses, Bool.not_eq_true',
      decide_eq_false_iff_not, not_le] at hi
    simp only [checkTradeAllowed, gt_iff_lt]
    split_ifs at hi ⊢ <;>
      first
        | exact Option.noConfusion hi
        | (cases Option.some.inj hi; rfl)
  · rw [hC]
  · rw [hC, Option.getD_some, tradeSizeReason, fmt2_twenty]
    decide

/-- Claim C8, witness: on scenario C the first failing rule is rule one and
the theorem yields the denial with the trade size reason text. -/
theorem check_trade_allowed_first_failing_rule_witness :
    checkTradeAllowed cfgC oppC 0 0 0 =
      (false, some (ruleReason cfgC oppC 0 0 0 0)) :=
  (check_trade_allowed_first_failing_rule cfgC oppC 0 0 0).2.1 0 (by
    norm_num [specFirstFailingRule, specRulePasses, cfgC, cfgA, oppC])

/-- Claim C9, counterexample: the claim says the confidence score lies in
the interval from 0 to 100 for every opportunity.  The source applies no
clamping, and on an opportunity with gross edge minus one the score is
minus 1000. -/
theorem confidence_score_below_zero_on_negative_edge :
    oppBad.confidenceScore =
      min 50 oppBad.liquidity + min 50 (oppBad.grossEdge * 1000) ∧
    oppBad.confidenceScore < 0 := by
  refine ⟨rfl, ?_⟩
  norm_num [ArbitrageOpportunity.confidenceScore, oppBad]

/-- Claim C9, amended: the confidence score equals
min(50, liquidity) + min(50, grossEdge times 1000) with no clamping
applied; it never exceeds 100, and it lies within the interval from 0 to
100 whenever liquidity and gross edge are nonnegative (as on every
Evaluator-emitted opportunity with nonnegative book sizes). -/
theorem confidence_score_formula_and_bounds (o : ArbitrageOpportunity) :
    o.confidenceScore = min 50 o.liquidity + min 50 (o.grossEdge * 1000) ∧
    o.confidenceScore ≤ 100 ∧
    (0 ≤ o.liquidity → 0 ≤ o.grossEdge →
      0 ≤ o.confidenceScore ∧ o.confidenceScore ≤ 100) := by
  have hub : o.confidenceScore ≤ 100 := by
    have ha : min 50 o.liquidity ≤ 50 := min_le_left _ _
    have hb : min 50 (o.grossEdge * 1000) ≤ 50 := min_le_left _ _
    simp only [ArbitrageOpportunity.confidenceScore]
    linarith
  refine ⟨rfl, hub, fun hl he => ⟨?_, hub⟩⟩
  have ha : (0 : ℚ) ≤ min 50 o.liquidity := le_min (by norm_num) hl
  have hb : (0 : ℚ) ≤ min 50 (o.grossEdge * 1000) :=
    le_min (by norm_num) (mul_nonneg he (by norm_num))
  simp only [ArbitrageOpportunity.confidenceScore]
  linarith

/-- Claim C9, witness at the scenario A opportunity, which has nonnegative
liquidity and gross edge. -/
theorem confidence_score_formula_and_bounds_witness :
    0 ≤ oppA.confidenceScore ∧ oppA.confidenceScore ≤ 100 :=
  (confidence_score_formula_and_bounds oppA).2.2
    (by norm_num [oppA]) (by norm_num [oppA])

/-- Claim C10: for every emitted opportunity the APY denominator
max(daysToResolution, 1) is at least one with daysToResolution itself
nonnegative by construction, the stored APY is the gross edge divided by
that denominator times 365 times 100, and the stored ROI is zero whenever
the total cost sumAsks times positionSize is not strictly positive and the
usual quotient otherwise, so neither computation divides by zero. -/
theorem apy_roi_denominators_total (cfg : Config) (market : Market)
    (yesOrderbook noOrderbook : OrderBook) (now : ℤ)
    (opp : ArbitrageOpportunity)
    (h : detectArbitrage cfg market yesOrderbook noOrderbook now = some opp) :
    0 ≤ market.daysToResolution now ∧
    1 ≤ max (market.daysToResolution now) 1 ∧
    opp.apy = opp.grossEdge /
      ((max (market.daysToResolution now) 1 : ℤ) : ℚ) * 365 * 100 ∧
    (¬0 < opp.sumAsks * opp.positionSize → opp.roi = 0) ∧
    (0 < opp.sumAsks * opp.positionSize →
      opp.roi = opp.netProfit / (opp.sumAsks * opp.positionSize) * 100) := by
  refine ⟨le_max_left 0 _, le_max_right _ 1, ?_⟩
  simp only [detectArbitrage] at h
  split at h
  · exact Option.noConfusion h
  · exact Option.noConfusion h
  · split_ifs at h with h1 h2 h3 h4 hc h5 <;>
      try exact Option.noConfusion h
    all_goals
      cases Option.some.inj h
      first
        | exact ⟨rfl, fun hnc => absurd h5 hnc, fun _ => rfl⟩
        | exact ⟨rfl, fun _ => rfl, fun hc2 => absurd hc2 h5⟩

/-- Claim C10, witness at the scenario A inputs, whose total cost 98 is
strictly positive. -/
theorem apy_roi_denominators_total_witness :
    0 ≤ mktA.daysToResolution 0 ∧
    1 ≤ max (mktA.daysToResolution 0) 1 ∧
    oppA.apy = oppA.grossEdge /
      ((max (mktA.daysToResolution 0) 1 : ℤ) : ℚ) * 365 * 100 ∧
    (¬0 < oppA.sumAsks * oppA.positionSize → oppA.roi = 0) ∧
    (0 < oppA.sumAsks * oppA.positionSize →
      oppA.roi = oppA.netProfit / (oppA.sumAsks * oppA.positionSize) * 100) :=
  apy_roi_denominators_total cfgA mktA yobA nobA 0 oppA (by
    norm_num [detectArbitrage, cfgA, mktA, yobA, nobA, oppA,
      OrderBook.bestAsk, OrderBook.bestAskPrice, Market.daysToResolution,
      Int.fdiv])

end Arb
